import Mathlib

/-!
Verification of the pattoo-shared variable-assembly core
(`pattoo_shared/variables.py`): key/value normalization, DataPoint
construction and metadata checksum chaining, DeviceDataPoints and
AgentPolledData `add` semantics and validity propagation.

Python values that can flow through the normalizer are modelled by the
inductive `PyVal`; machine floats are modelled by exact rationals (the
claims under verification involve only exact decimal parses).
-/

namespace Pattoo

/-- Model of a Python value as it can reach the functions under study:
a string, an integer, a float (modelled as an exact rational), a boolean,
`None`, or any other object (only ever type-tested, never inspected). -/
inductive PyVal where
  | str (s : String)
  | int (n : Int)
  | float (q : ℚ)
  | bool (b : Bool)
  | none
  | obj
  deriving DecidableEq

/-- Python `isinstance(v, (str, int, float))`.  Note Python's `bool` is a
subclass of `int`, so booleans pass this test (the source adds separate
`is not True` / `is not False` guards). -/
def isinstanceStrIntFloat : PyVal → Bool
  | .str _ => true
  | .int _ => true
  | .float _ => true
  | .bool _ => true
  | .none => false
  | .obj => false

/-- Python `v is True`. -/
def isPyTrue : PyVal → Bool
  | .bool true => true
  | _ => false

/-- Python `v is False`. -/
def isPyFalse : PyVal → Bool
  | .bool false => true
  | _ => false

/-- Python `v is None`. -/
def isPyNone : PyVal → Bool
  | .none => true
  | _ => false

/-- Conjunction of the per-argument guards of `_key_value_valid`:
`isinstance(v, (str, int, float))` and `v is not True`, `v is not False`,
`v is not None`. -/
def pyOK (v : PyVal) : Bool :=
  isinstanceStrIntFloat v && !isPyTrue v && !isPyFalse v && !isPyNone v

/-- Python `str(v)` for the values of the model. -/
def pyStr : PyVal → String
  | .str s => s
  | .int n => toString n
  | .float q => toString q
  | .bool true => "True"
  | .bool false => "False"
  | .none => "None"
  | .obj => "<object>"

/-- Python truthiness `bool(v)`. -/
def pyBool : PyVal → Bool
  | .str s => s != ""
  | .int n => n != 0
  | .float q => q != 0
  | .bool b => b
  | .none => false
  | .obj => true

/-- Whitespace test used by Python `str.strip()` (ASCII whitespace). -/
def pyIsSpace (c : Char) : Bool :=
  c = ' ' || c = '\t' || c = '\n' || c = '\x0d' || c = '\x0b' || c = '\x0c'

/-- Python `str.strip()`: drop leading and trailing whitespace. -/
def pyStripList (l : List Char) : List Char :=
  ((l.dropWhile pyIsSpace).reverse.dropWhile pyIsSpace).reverse

/-- Python `str.strip()` on strings. -/
def pyStrip (s : String) : String :=
  ⟨pyStripList s.data⟩

/-- Python `str.lower()` (character-wise lowercasing). -/
def pyLower (s : String) : String :=
  ⟨s.data.map Char.toLower⟩

/-- Python substring test `needle in hay`. -/
def containsSub (hay needle : String) : Bool :=
  decide (needle.data <:+: hay.data)

/-- Key canonicalization of `_key_value_valid`: Python
`str(key).lower().strip()`. -/
def normKey (key : PyVal) : String :=
  pyStrip (pyLower (pyStr key))

/-- Model of `variables._key_value_valid(key, value, metadata, override)`:
reject non-(str/int/float) and boolean/None arguments; lowercase and strip
the key; reject an empty key and (unless `override`) a key containing the
reserved token; coerce the value to a stripped string when `metadata`;
return `(None, None, False)` on any failure. -/
def _key_value_valid (key value : PyVal) (metadata override : Bool) :
    PyVal × PyVal × Bool :=
  if pyOK key && pyOK value then
    if (normKey key != "") &&
        (override || !containsSub (pyLower (normKey key)) ("pattoo")) then
      (PyVal.str (normKey key),
        if metadata then PyVal.str (pyStrip (pyStr value)) else value,
        true)
    else (PyVal.none, PyVal.none, false)
  else (PyVal.none, PyVal.none, false)

/-- Digits of a numeric literal read as a natural number. -/
def digitsToNat (l : List Char) : Nat :=
  l.foldl (fun n c => 10 * n + (c.toNat - 48)) 0

/-- Modelled from the spec: the numeric-string parse backing
`data.is_numeric` and Python `float()` (module `pattoo_shared.data` is not
under `src/`).  Per the spec a number is digits with an optional sign and an
optional decimal point; the result is the exact rational value. -/
def parsePyFloat (s : String) : Option ℚ :=
  let sb : Int × List Char :=
    match s.data with
    | '-' :: rest => (-1, rest)
    | '+' :: rest => (1, rest)
    | l => (1, l)
  let intPart := sb.2.takeWhile Char.isDigit
  let rest := sb.2.dropWhile Char.isDigit
  match rest with
  | [] =>
      if intPart.length > 0 then some (mkRat (sb.1 * digitsToNat intPart) 1)
      else Option.none
  | '.' :: frac =>
      if (intPart.length + frac.length > 0) && frac.all Char.isDigit then
        some (mkRat
          (sb.1 * (digitsToNat intPart * 10 ^ frac.length + digitsToNat frac))
          (10 ^ frac.length))
      else Option.none
  | _ => Option.none

/-- Modelled from the spec: `data.is_numeric(v)` — whether Python
`float(v)` succeeds (module `pattoo_shared.data` is not under `src/`). -/
def is_numeric : PyVal → Bool
  | .str s => (parsePyFloat s).isSome
  | .int _ => true
  | .float _ => true
  | .bool _ => true
  | .none => false
  | .obj => false

/-- Python `int(float(x))`: truncation of a rational toward zero. -/
def ratTrunc (q : ℚ) : Int :=
  Int.tdiv q.num (Int.ofNat q.den)

/-- Modelled from the spec: `data.hashstring` (module `pattoo_shared.data`
is not under `src/`).  The spec requires a deterministic, collision-resistant
content hash; it is modelled as the ideal injective hash, the identity on
the input string, so checksum equality coincides with transcript equality. -/
def hashstring (s : String) : String := s

/-- Modelled from the spec: the `data_type` constants of
`pattoo_shared.constants` (not under `src/`), an integer enum with six
distinct members, together with the other Python values the source guards
against (`True`, `False`, `None`, anything else). -/
inductive DType where
  | DATA_INT
  | DATA_FLOAT
  | DATA_COUNT64
  | DATA_COUNT
  | DATA_STRING
  | DATA_NONE
  | pyTrue
  | pyFalse
  | pyNone
  | other
  deriving DecidableEq

/-- Python `data_type in [DATA_INT, DATA_FLOAT, DATA_COUNT64, DATA_COUNT,
DATA_STRING, DATA_NONE]`. -/
def dtypeInList : DType → Bool
  | .DATA_INT | .DATA_FLOAT | .DATA_COUNT64 | .DATA_COUNT
  | .DATA_STRING | .DATA_NONE => true
  | _ => false

/-- Python `data_type in [DATA_INT, DATA_FLOAT, DATA_COUNT64, DATA_COUNT]`
(the numeric data types). -/
def dtypeNumeric : DType → Bool
  | .DATA_INT | .DATA_FLOAT | .DATA_COUNT64 | .DATA_COUNT => true
  | _ => false

/-- Python `data_type in [DATA_FLOAT, DATA_COUNT64, DATA_COUNT]` (the types
stored as floating point). -/
def dtypeFloatKind : DType → Bool
  | .DATA_FLOAT | .DATA_COUNT64 | .DATA_COUNT => true
  | _ => false

/-- Conjunction of the guards `data_type is not False`, `is not True`,
`is not None` of `DataPoint.__init__`. -/
def dtypeIsBoolOrNone : DType → Bool
  | .pyTrue | .pyFalse | .pyNone => true
  | _ => false

/-- Python `str(data_type)` — modelled from the spec: the enum members are
distinct integers; concrete digits chosen arbitrarily but distinct. -/
def dtypeStr : DType → String
  | .DATA_INT => "99"
  | .DATA_FLOAT => "101"
  | .DATA_COUNT64 => "64"
  | .DATA_COUNT => "32"
  | .DATA_STRING => "2"
  | .DATA_NONE => "0"
  | .pyTrue => "True"
  | .pyFalse => "False"
  | .pyNone => "None"
  | .other => "<object>"

/-- Modelled from the spec: `DATAPOINT_KEYS` of `pattoo_shared.constants`
(not under `src/`), the reserved top-level attribute names whose collision
silently drops a metadata item. -/
def DATAPOINT_KEYS : List PyVal :=
  [.str "agent_id", .str "agent_program", .str "agent_hostname",
   .str "timestamp", .str "polling_interval", .str "checksum"]

/-- Model of a constructed `Metadata` object (`variables.Metadata` and its
subclass `DataPointMetadata`): the normalized key/value and validity flag. -/
structure Metadata where
  key : PyVal
  value : PyVal
  valid : Bool
  deriving DecidableEq

/-- Model of `DataPointMetadata.__init__`: normalize the pair with
`metadata=True`, `override=False`. -/
def DataPointMetadata.new (key value : PyVal) : Metadata :=
  let r := _key_value_valid key value true false
  ⟨r.1, r.2.1, r.2.2⟩

/-- Model of a `DataPoint` object: the normalized key, the (possibly
coerced) value, the validity flag, the data type, the creation timestamp,
the insertion-ordered metadata mapping, the `_metakeys` bookkeeping list
and the chained checksum. -/
structure DataPoint where
  key : PyVal
  value : PyVal
  valid : Bool
  data_type : DType
  timestamp : Int
  metadata : List (PyVal × PyVal)
  _metakeys : List PyVal
  checksum : String
  deriving DecidableEq

/-- Validity computation of `DataPoint.__init__`: the normalizer verdict
`pairValid`, the data-type guards, and the numeric-value check. -/
def dataPointValid (pairValid : Bool) (dt : DType) (value : PyVal) : Bool :=
  let v1 := dtypeInList dt && !dtypeIsBoolOrNone dt && pairValid
  if dtypeNumeric dt && v1 && !is_numeric value then false else v1

/-- Value coercion of `DataPoint.__init__`: a numeric string under a
float-kind type is stored as a float, under `DATA_INT` truncated to an
integer; under `DATA_STRING` the raw value is stored as a string. -/
def dataPointValue (valid : Bool) (v0 value : PyVal) (dt : DType) : PyVal :=
  let v1 :=
    match value with
    | .str s =>
        if valid then
          match parsePyFloat s with
          | some q =>
              if dtypeFloatKind dt then PyVal.float q
              else if dt = DType.DATA_INT then PyVal.int (ratTrunc q)
              else v0
          | Option.none => v0
        else v0
    | _ => v0
  if dt = DType.DATA_STRING then PyVal.str (pyStr value) else v1

/-- Model of `DataPoint.__init__(key, value, data_type)`; the creation time
(Python `time()`) is an external input and is taken as the parameter
`now`. -/
def DataPoint.new (now : Int) (key value : PyVal) (dt : DType) : DataPoint :=
  { key := (_key_value_valid key value false false).1
    value := dataPointValue
      (dataPointValid (_key_value_valid key value false false).2.2 dt value)
      (_key_value_valid key value false false).2.1 value dt
    valid := dataPointValid (_key_value_valid key value false false).2.2 dt value
    data_type := dt
    timestamp := now
    metadata := []
    _metakeys := []
    checksum := hashstring (pyStr (_key_value_valid key value false false).1 ++ dtypeStr dt) }

/-- Element of the heterogeneous list passed to `DataPoint.add`: either a
`Metadata` instance or any other Python object. -/
inductive DPItem where
  | meta (m : Metadata)
  | other (v : PyVal)
  deriving DecidableEq

/-- One step of `DataPoint.add`: non-`Metadata` items are skipped; invalid
items and reserved (`DATAPOINT_KEYS`) or duplicate keys are skipped;
otherwise the pair is stored and the checksum is re-chained. -/
def DataPoint.add1 (p : DataPoint) : DPItem → DataPoint
  | .other _ => p
  | .meta m =>
      if m.valid = false ∨ m.key ∈ DATAPOINT_KEYS then p
      else if m.key ∈ p._metakeys then p
      else
        { p with
          metadata := p.metadata ++ [(m.key, m.value)]
          _metakeys := p._metakeys ++ [m.key]
          checksum := hashstring (p.checksum ++ pyStr m.key ++ pyStr m.value) }

/-- Model of `DataPoint.add(items)` over an item list. -/
def DataPoint.add (p : DataPoint) (items : List DPItem) : DataPoint :=
  items.foldl DataPoint.add1 p

/-- Model of a `DeviceDataPoints` container: the stored `DataPoint` list,
the device identifier, the validity flag and the `_checksums` dedup index. -/
structure DeviceDataPoints where
  data : List DataPoint
  device : PyVal
  valid : Bool
  _checksums : List String
  deriving DecidableEq

/-- Model of `DeviceDataPoints.__init__(device)`. -/
def DeviceDataPoints.new (device : PyVal) : DeviceDataPoints :=
  ⟨[], device, false, []⟩

/-- Element of the heterogeneous list passed to `DeviceDataPoints.add`:
either a `DataPoint` instance or any other Python object. -/
inductive DDPItem where
  | dp (p : DataPoint)
  | other (v : PyVal)
  deriving DecidableEq

/-- One step of `DeviceDataPoints.add`: non-`DataPoint` items are skipped;
a `DataPoint` whose checksum is new is appended (its `valid` flag is never
consulted); the container validity is then recomputed. -/
def DeviceDataPoints.add1 (c : DeviceDataPoints) : DDPItem → DeviceDataPoints
  | .other _ => c
  | .dp p =>
      if p.checksum ∈ c._checksums then
        { c with valid := !c.data.isEmpty && pyBool c.device }
      else
        { c with
          data := c.data ++ [p]
          _checksums := c._checksums ++ [p.checksum]
          valid := !(c.data ++ [p]).isEmpty && pyBool c.device }

/-- Model of `DeviceDataPoints.add(items)` over an item list. -/
def DeviceDataPoints.add (c : DeviceDataPoints) (items : List DDPItem) :
    DeviceDataPoints :=
  items.foldl DeviceDataPoints.add1 c

/-- Model of an `AgentPolledData` object.  The identity fields come from
collaborators outside `src/` (`socket.getfqdn`, `files.get_agent_id`,
`config.polling_interval`) and are taken as constructor parameters. -/
structure AgentPolledData where
  agent_program : PyVal
  agent_hostname : PyVal
  agent_id : PyVal
  polling_interval : PyVal
  data : List DeviceDataPoints
  valid : Bool
  deriving DecidableEq

/-- Model of `AgentPolledData.__init__`. -/
def AgentPolledData.new (agent_program agent_hostname agent_id
    polling_interval : PyVal) : AgentPolledData :=
  ⟨agent_program, agent_hostname, agent_id, polling_interval, [], false⟩

/-- Element of the heterogeneous list passed to `AgentPolledData.add`:
either a `DeviceDataPoints` instance or any other Python object. -/
inductive APDItem where
  | dd (d : DeviceDataPoints)
  | other (v : PyVal)
  deriving DecidableEq

/-- Truthiness of the four identity fields checked by
`AgentPolledData.add`: `bool(agent_id)`, `bool(agent_program)`,
`bool(agent_hostname)`, `bool(polling_interval)`. -/
def apdTruthy (a : AgentPolledData) : Bool :=
  pyBool a.agent_id && pyBool a.agent_program &&
    pyBool a.agent_hostname && pyBool a.polling_interval

/-- One step of `AgentPolledData.add`: non-`DeviceDataPoints` items and
invalid children are skipped; otherwise the child is appended and the
validity flag recomputed as the conjunction of the identity-field
truthiness and `bool(self.data)`. -/
def AgentPolledData.add1 (a : AgentPolledData) : APDItem → AgentPolledData
  | .other _ => a
  | .dd d =>
      if d.valid = false then a
      else
        { a with
          data := a.data ++ [d]
          valid := apdTruthy a && !(a.data ++ [d]).isEmpty }

/-- Model of `AgentPolledData.add(items)` over an item list. -/
def AgentPolledData.add (a : AgentPolledData) (items : List APDItem) :
    AgentPolledData :=
  items.foldl AgentPolledData.add1 a

/-- A sequence of `AgentPolledData.add` calls, each with its own item
list. -/
def AgentPolledData.addSeq (a : AgentPolledData)
    (calls : List (List APDItem)) : AgentPolledData :=
  calls.foldl AgentPolledData.add a

/-- Whether an item passed to `DeviceDataPoints.add` is a `DataPoint`
instance. -/
def ddpIsDataPoint : DDPItem → Bool
  | .dp _ => true
  | .other _ => false

/-- Whether an item passed to `AgentPolledData.add` is accepted: a
`DeviceDataPoints` instance whose `valid` flag is true. -/
def apdAccepted : APDItem → Bool
  | .dd d => d.valid
  | .other _ => false

/-- Chained checksum fold: starting from a seed, fold each metadata pair in
order through `hashstring (previous ++ key ++ value)`. -/
def foldChecksum (seed : String) (ms : List (PyVal × PyVal)) : String :=
  ms.foldl (fun c kv => hashstring (c ++ pyStr kv.1 ++ pyStr kv.2)) seed

/-- Concatenated key/value transcript of a metadata list. -/
def metaTranscript : List (PyVal × PyVal) → String
  | [] => ""
  | (k, v) :: ms => pyStr k ++ pyStr v ++ metaTranscript ms

/-- A sample valid reading used in concrete examples. -/
def sampleDP : DataPoint :=
  DataPoint.new 0 (.str "cpu") (.int 1) DType.DATA_INT

/-! Helper lemmas. -/

theorem dataPoint_add1_fields (p : DataPoint) (i : DPItem) :
    (p.add1 i).key = p.key ∧ (p.add1 i).value = p.value ∧
    (p.add1 i).valid = p.valid ∧ (p.add1 i).data_type = p.data_type := by
  cases i with
  | other v => exact ⟨rfl, rfl, rfl, rfl⟩
  | meta m =>
    simp only [DataPoint.add1]
    split
    · exact ⟨rfl, rfl, rfl, rfl⟩
    · split
      · exact ⟨rfl, rfl, rfl, rfl⟩
      · exact ⟨rfl, rfl, rfl, rfl⟩

theorem dataPoint_add_key (p : DataPoint) (items : List DPItem) :
    (p.add items).key = p.key := by
  induction items generalizing p with
  | nil => rfl
  | cons i is ih =>
    show ((p.add1 i).add is).key = p.key
    rw [ih, (dataPoint_add1_fields p i).1]

theorem dataPoint_add_valid (p : DataPoint) (items : List DPItem) :
    (p.add items).valid = p.valid := by
  induction items generalizing p with
  | nil => rfl
  | cons i is ih =>
    show ((p.add1 i).add is).valid = p.valid
    rw [ih, (dataPoint_add1_fields p i).2.2.1]

theorem dataPoint_add_chain (p : DataPoint) (items : List DPItem) :
    ∃ ext, (p.add items).metadata = p.metadata ++ ext ∧
      (p.add items).checksum = foldChecksum p.checksum ext := by
  induction items generalizing p with
  | nil => exact ⟨[], by simp [DataPoint.add, foldChecksum]⟩
  | cons i is ih =>
    show ∃ ext, ((p.add1 i).add is).metadata = p.metadata ++ ext ∧
      ((p.add1 i).add is).checksum = foldChecksum p.checksum ext
    cases i with
    | other v => exact ih p
    | meta m =>
      simp only [DataPoint.add1]
      split
      · exact ih p
      · split
        · exact ih p
        · obtain ⟨ext, hm, hc⟩ := ih
            { p with
              metadata := p.metadata ++ [(m.key, m.value)]
              _metakeys := p._metakeys ++ [m.key]
              checksum := hashstring (p.checksum ++ pyStr m.key ++ pyStr m.value) }
          refine ⟨(m.key, m.value) :: ext, ?_, ?_⟩
          · simpa [List.append_assoc] using hm
          · simpa [foldChecksum] using hc

theorem string_append_cancel {a b c : String} (h : a ++ b = a ++ c) : b = c := by
  have hd : a.data ++ b.data = a.data ++ c.data := by
    rw [← String.data_append, ← String.data_append, h]
  have hbc := List.append_cancel_left hd
  cases b
  cases c
  exact congrArg String.mk hbc

theorem foldChecksum_eq_append (seed : String) (ms : List (PyVal × PyVal)) :
    foldChecksum seed ms = seed ++ metaTranscript ms := by
  induction ms generalizing seed with
  | nil =>
    show seed = seed ++ ""
    rw [String.append_empty]
  | cons kv ms ih =>
    cases kv with
    | mk k v =>
      show foldChecksum (hashstring (seed ++ pyStr k ++ pyStr v)) ms =
        seed ++ metaTranscript ((k, v) :: ms)
      rw [ih]
      show seed ++ pyStr k ++ pyStr v ++ metaTranscript ms =
        seed ++ (pyStr k ++ pyStr v ++ metaTranscript ms)
      rw [String.append_assoc, String.append_assoc, String.append_assoc]

theorem ddp_add1_device (c : DeviceDataPoints) (i : DDPItem) :
    (c.add1 i).device = c.device := by
  cases i with
  | other v => rfl
  | dp p =>
    simp only [DeviceDataPoints.add1]
    split
    · rfl
    · rfl

theorem ddp_add_device (c : DeviceDataPoints) (items : List DDPItem) :
    (c.add items).device = c.device := by
  induction items generalizing c with
  | nil => rfl
  | cons i is ih =>
    show ((c.add1 i).add is).device = c.device
    rw [ih, ddp_add1_device]

theorem ddp_add_data (c : DeviceDataPoints) (items : List DDPItem) :
    ∃ ext, (c.add items).data = c.data ++ ext := by
  induction items generalizing c with
  | nil => exact ⟨[], by simp [DeviceDataPoints.add]⟩
  | cons i is ih =>
    show ∃ ext, ((c.add1 i).add is).data = c.data ++ ext
    cases i with
    | other v => exact ih c
    | dp p =>
      simp only [DeviceDataPoints.add1]
      split
      · obtain ⟨ext, h⟩ := ih { c with valid := !c.data.isEmpty && pyBool c.device }
        exact ⟨ext, h⟩
      · obtain ⟨ext, h⟩ := ih
          { c with
            data := c.data ++ [p]
            _checksums := c._checksums ++ [p.checksum]
            valid := !(c.data ++ [p]).isEmpty && pyBool c.device }
        exact ⟨p :: ext, by simpa [List.append_assoc] using h⟩

theorem ddp_add1_validEq (c : DeviceDataPoints) (i : DDPItem)
    (h : c.valid = (!c.data.isEmpty && pyBool c.device)) :
    (c.add1 i).valid = (!(c.add1 i).data.isEmpty && pyBool (c.add1 i).device) := by
  cases i with
  | other v => exact h
  | dp p =>
    simp only [DeviceDataPoints.add1]
    split
    · rfl
    · rfl

theorem ddp_add_validEq (c : DeviceDataPoints) (items : List DDPItem)
    (h : c.valid = (!c.data.isEmpty && pyBool c.device)) :
    (c.add items).valid =
      (!(c.add items).data.isEmpty && pyBool (c.add items).device) := by
  induction items generalizing c with
  | nil => exact h
  | cons i is ih =>
    show ((c.add1 i).add is).valid = _
    exact ih (c.add1 i) (ddp_add1_validEq c i h)

theorem apd_add1_fields (a : AgentPolledData) (i : APDItem) :
    (a.add1 i).agent_program = a.agent_program ∧
    (a.add1 i).agent_hostname = a.agent_hostname ∧
    (a.add1 i).agent_id = a.agent_id ∧
    (a.add1 i).polling_interval = a.polling_interval := by
  cases i with
  | other v => exact ⟨rfl, rfl, rfl, rfl⟩
  | dd d =>
    simp only [AgentPolledData.add1]
    split
    · exact ⟨rfl, rfl, rfl, rfl⟩
    · exact ⟨rfl, rfl, rfl, rfl⟩

theorem apd_add1_truthy (a : AgentPolledData) (i : APDItem) :
    apdTruthy (a.add1 i) = apdTruthy a := by
  obtain ⟨h1, h2, h3, h4⟩ := apd_add1_fields a i
  simp [apdTruthy, h1, h2, h3, h4]

theorem apd_add_truthy (a : AgentPolledData) (items : List APDItem) :
    apdTruthy (a.add items) = apdTruthy a := by
  induction items generalizing a with
  | nil => rfl
  | cons i is ih =>
    show apdTruthy ((a.add1 i).add is) = apdTruthy a
    rw [ih, apd_add1_truthy]

theorem apd_add_data (a : AgentPolledData) (items : List APDItem) :
    ∃ ext, (a.add items).data = a.data ++ ext := by
  induction items generalizing a with
  | nil => exact ⟨[], by simp [AgentPolledData.add]⟩
  | cons i is ih =>
    show ∃ ext, ((a.add1 i).add is).data = a.data ++ ext
    cases i with
    | other v => exact ih a
    | dd d =>
      simp only [AgentPolledData.add1]
      split
      · exact ih a
      · obtain ⟨ext, h⟩ := ih
          { a with
            data := a.data ++ [d]
            valid := apdTruthy a && !(a.data ++ [d]).isEmpty }
        exact ⟨d :: ext, by simpa [List.append_assoc] using h⟩

theorem apd_add1_validEq (a : AgentPolledData) (i : APDItem)
    (h : a.valid = (apdTruthy a && !a.data.isEmpty)) :
    (a.add1 i).valid = (apdTruthy (a.add1 i) && !(a.add1 i).data.isEmpty) := by
  cases i with
  | other v => rw [apd_add1_truthy]; exact h
  | dd d =>
    rw [apd_add1_truthy]
    simp only [AgentPolledData.add1]
    split
    · exact h
    · rfl

theorem apd_add_validEq (a : AgentPolledData) (items : List APDItem)
    (h : a.valid = (apdTruthy a && !a.data.isEmpty)) :
    (a.add items).valid =
      (apdTruthy (a.add items) && !(a.add items).data.isEmpty) := by
  induction items generalizing a with
  | nil => exact h
  | cons i is ih =>
    show ((a.add1 i).add is).valid = _
    exact ih (a.add1 i) (apd_add1_validEq a i h)

theorem apd_add_isEmpty (a : AgentPolledData) (items : List APDItem) :
    (a.add items).data.isEmpty = (a.data.isEmpty && !items.any apdAccepted) := by
  induction items generalizing a with
  | nil => simp [AgentPolledData.add]
  | cons i is ih =>
    show ((a.add1 i).add is).data.isEmpty = _
    rw [ih]
    cases i with
    | other v => simp [apdAccepted, AgentPolledData.add1]
    | dd d =>
      simp only [AgentPolledData.add1, List.any_cons, apdAccepted]
      split
      next hdv => simp [hdv]
      next hdv =>
        have hdv' : d.valid = true := by
          cases hv : d.valid
          · exact absurd hv hdv
          · rfl
        simp [hdv']

theorem apd_add_append (a : AgentPolledData) (xs ys : List APDItem) :
    a.add (xs ++ ys) = (a.add xs).add ys := by
  simp [AgentPolledData.add, List.foldl_append]

theorem apd_addSeq_join (a : AgentPolledData) (calls : List (List APDItem)) :
    a.addSeq calls = a.add calls.flatten := by
  induction calls generalizing a with
  | nil => rfl
  | cons c cs ih =>
    show (a.add c).addSeq cs = a.add ((c :: cs).flatten)
    rw [ih]
    show (a.add c).add cs.flatten = a.add (c ++ cs.flatten)
    rw [apd_add_append]

theorem ddp_add_append (c : DeviceDataPoints) (xs ys : List DDPItem) :
    c.add (xs ++ ys) = (c.add xs).add ys := by
  simp [DeviceDataPoints.add, List.foldl_append]

theorem apd_active_iff_aux (ap ah ai pi : PyVal)
    (calls : List (List APDItem)) :
    ((AgentPolledData.new ap ah ai pi).addSeq calls).valid = true ↔
      ((pyBool ai && pyBool ap && pyBool ah && pyBool pi) = true ∧
        ∃ items ∈ calls, ∃ item ∈ items, apdAccepted item = true) := by
  rw [apd_addSeq_join]
  rw [apd_add_validEq (AgentPolledData.new ap ah ai pi) calls.flatten
    (by simp [AgentPolledData.new])]
  rw [apd_add_truthy, apd_add_isEmpty]
  show (apdTruthy (AgentPolledData.new ap ah ai pi) &&
    !(List.isEmpty [] && !calls.flatten.any apdAccepted)) = true ↔ _
  simp only [apdTruthy, AgentPolledData.new, List.isEmpty_nil, Bool.true_and,
    Bool.not_not, Bool.and_eq_true, List.any_eq_true]
  rw [Iff.comm]
  constructor
  · rintro ⟨h1, items, hi, item, him, hacc⟩
    exact ⟨h1, item, List.mem_flatten.mpr ⟨items, hi, him⟩, hacc⟩
  · rintro ⟨h1, item, hmem, hacc⟩
    obtain ⟨items, hi, him⟩ := List.mem_flatten.mp hmem
    exact ⟨h1, items, hi, item, him, hacc⟩

theorem infix_dropWhile (p : Char → Bool) (t : List Char)
    (hne : t ≠ []) (hns : ∀ c ∈ t, p c = false) :
    ∀ u v : List Char, t <:+: (u ++ (t ++ v)).dropWhile p := by
  intro u v
  induction u with
  | nil =>
    rw [List.nil_append]
    cases t with
    | nil => exact absurd rfl hne
    | cons c t' =>
      rw [List.cons_append, List.dropWhile_cons]
      rw [hns c (List.mem_cons_self c t')]
      simp only [Bool.false_eq_true, if_false]
      exact ⟨[], v, by simp⟩
  | cons a u ih =>
    rw [List.cons_append, List.dropWhile_cons]
    by_cases hpa : p a = true
    · rw [hpa]
      simpa using ih
    · simp only [hpa, if_false]
      exact ⟨a :: u, v, by simp⟩

theorem infix_nonempty {t l : List Char} (h : t <:+: l) (hne : t ≠ []) :
    l ≠ [] := by
  obtain ⟨u, v, huv⟩ := h
  intro hl
  rw [hl] at huv
  have := List.append_eq_nil.mp huv
  have := List.append_eq_nil.mp this.1
  exact hne this.2

theorem infix_map_toLower {t l : List Char} (h : t <:+: l) :
    t.map Char.toLower <:+: l.map Char.toLower := by
  obtain ⟨u, v, huv⟩ := h
  exact ⟨u.map Char.toLower, v.map Char.toLower, by rw [← huv]; simp⟩

theorem infix_pyStripList {t l : List Char}
    (hne : t ≠ []) (hns : ∀ c ∈ t, pyIsSpace c = false)
    (h : t <:+: l) : t <:+: pyStripList l := by
  obtain ⟨u, v, huv⟩ := h
  have h1 : t <:+: l.dropWhile pyIsSpace := by
    rw [← huv, List.append_assoc]
    exact infix_dropWhile pyIsSpace t hne hns u v
  have h2 : t.reverse <:+: (l.dropWhile pyIsSpace).reverse :=
    List.reverse_infix.mpr h1
  obtain ⟨u2, v2, huv2⟩ := h2
  have h3 : t.reverse <:+: ((l.dropWhile pyIsSpace).reverse).dropWhile pyIsSpace := by
    rw [← huv2, List.append_assoc]
    refine infix_dropWhile pyIsSpace t.reverse ?_ ?_ u2 v2
    · simpa using hne
    · intro c hc
      exact hns c (List.mem_reverse.mp hc)
  have h4 : t.reverse <:+:
      (((l.dropWhile pyIsSpace).reverse.dropWhile pyIsSpace).reverse).reverse := by
    rwa [List.reverse_reverse]
  exact List.reverse_infix.mp h4

theorem key_value_valid_key_of_valid (key value : PyVal) (m o : Bool)
    (h : (_key_value_valid key value m o).2.2 = true) :
    (_key_value_valid key value m o).1 = .str (normKey key) := by
  unfold _key_value_valid at h ⊢
  split
  next hc1 =>
    split
    next hc2 => rfl
    next hc2 =>
      rw [if_pos hc1, if_neg hc2] at h
      simp at h
  next hc1 =>
    rw [if_neg hc1] at h
    simp at h

theorem dataPointValid_pairValid {pv : Bool} {dt : DType} {value : PyVal}
    (h : dataPointValid pv dt value = true) : pv = true := by
  simp only [dataPointValid] at h
  split at h
  · exact absurd h (by simp)
  · simp only [Bool.and_eq_true] at h
    exact h.2

theorem ddp_add1_idem (c : DeviceDataPoints) (p q : DataPoint)
    (h : q.checksum = p.checksum) :
    (c.add1 (.dp p)).add1 (.dp q) = c.add1 (.dp p) := by
  have hmem : q.checksum ∈ (c.add1 (.dp p))._checksums := by
    rw [h]
    show p.checksum ∈ (DeviceDataPoints.add1 c (.dp p))._checksums
    simp only [DeviceDataPoints.add1]
    split
    next hin => exact hin
    next hin => exact List.mem_append_right _ (List.mem_singleton.mpr rfl)
  have hval : (c.add1 (.dp p)).valid =
      (!(c.add1 (.dp p)).data.isEmpty && pyBool (c.add1 (.dp p)).device) := by
    show (DeviceDataPoints.add1 c (.dp p)).valid = _
    simp only [DeviceDataPoints.add1]
    split
    · rfl
    · rfl
  generalize hg : c.add1 (.dp p) = c1 at hmem hval ⊢
  show DeviceDataPoints.add1 c1 (.dp q) = c1
  simp only [DeviceDataPoints.add1]
  rw [if_pos hmem, ← hval]

theorem ddp_pair_dedup (d : PyVal) (p q : DataPoint)
    (h : q.checksum = p.checksum) :
    ((DeviceDataPoints.new d).add [.dp p, .dp q]).data = [p] := by
  show (((DeviceDataPoints.new d).add1 (.dp p)).add1 (.dp q)).data = [p]
  rw [ddp_add1_idem _ _ _ h]
  simp only [DeviceDataPoints.add1, DeviceDataPoints.new]
  rw [if_neg (by simp)]
  rfl

/-! Claim theorems. -/

/-- Claim C1: for every Submission (`AgentPolledData`), after any sequence
of `add` calls its valid flag is true iff `agent_id`, `agent_program`,
`agent_hostname` and `polling_interval` are all truthy and at least one
valid child `DeviceDataPoints` has been accepted by `add`. -/
theorem agentPolledData_active_iff (ap ah ai pi : PyVal)
    (calls : List (List APDItem)) :
    ((AgentPolledData.new ap ah ai pi).addSeq calls).valid = true ↔
      ((pyBool ai && pyBool ap && pyBool ah && pyBool pi) = true ∧
        ∃ items ∈ calls, ∃ item ∈ items, apdAccepted item = true) :=
  apd_active_iff_aux ap ah ai pi calls

/-- Claim C2 counterexample: `DeviceDataPoints.add` does not consult the
child's valid flag.  The DataPoint built from the reserved key
`"pattoo_key"` is invalid, yet adding it to a fresh `DeviceDataPoints`
changes the stored data list (and even activates the container), so an
invalid child is not ignored. -/
theorem deviceDataPoints_add_stores_invalid :
    (DataPoint.new 0 (.str "pattoo_key") (.int 1) DType.DATA_INT).valid
      = false ∧
    ((DeviceDataPoints.new (.str "device1")).add
        [.dp (DataPoint.new 0 (.str "pattoo_key") (.int 1) DType.DATA_INT)]).data
      ≠ (DeviceDataPoints.new (.str "device1")).data ∧
    ((DeviceDataPoints.new (.str "device1")).add
        [.dp (DataPoint.new 0 (.str "pattoo_key") (.int 1) DType.DATA_INT)]).valid
      = true :=
  ⟨by decide, by decide, by decide⟩

/-- Claim C2 amended: invalid children are ignored by
`AgentPolledData.add` — a call whose items are all rejected (invalid
children or non-`DeviceDataPoints` objects) leaves the Submission
completely unchanged; `DeviceDataPoints.add` by contrast ignores the valid
flag (see the counterexample). -/
theorem agentPolledData_add_ignores_invalid (a : AgentPolledData)
    (items : List APDItem) (h : ∀ i ∈ items, apdAccepted i = false) :
    a.add items = a := by
  induction items generalizing a with
  | nil => rfl
  | cons i is ih =>
    show (a.add1 i).add is = a
    have hi := h i (List.mem_cons_self i is)
    have hrest : ∀ j ∈ is, apdAccepted j = false :=
      fun j hj => h j (List.mem_cons_of_mem i hj)
    cases i with
    | other v => exact ih a hrest
    | dd d =>
      have hi' : d.valid = false := hi
      have hstep : a.add1 (.dd d) = a := by
        simp [AgentPolledData.add1, hi']
      rw [hstep]
      exact ih a hrest

/-- Claim C2 amended, witness: adding a freshly created (hence invalid)
`DeviceDataPoints` to a Submission leaves it unchanged. -/
theorem agentPolledData_add_ignores_invalid_witness :
    (AgentPolledData.new (.str "prog") (.str "host") (.str "id")
        (.int 300)).add [.dd (DeviceDataPoints.new (.str "dev"))] =
      AgentPolledData.new (.str "prog") (.str "host") (.str "id") (.int 300) :=
  agentPolledData_add_ignores_invalid _ _ (by decide)

/-- Claim C3: adding the same Reading twice, or any second Reading whose
checksum equals one already stored, leaves the container unchanged (the
whole object, hence in particular the stored data list), and a fresh set
receiving the duplicate pair stores exactly one copy. -/
theorem deviceDataPoints_dedup (c : DeviceDataPoints) (d : PyVal)
    (p q : DataPoint) (h : q.checksum = p.checksum) :
    (c.add [.dp p]).add [.dp q] = c.add [.dp p] ∧
    ((DeviceDataPoints.new d).add [.dp p, .dp q]).data = [p] :=
  ⟨ddp_add1_idem c p q h, ddp_pair_dedup d p q h⟩

/-- Claim C3 witness: adding the sample Reading twice stores exactly one
copy. -/
theorem deviceDataPoints_dedup_witness :
    ((DeviceDataPoints.new (.str "device1")).add
        [.dp sampleDP, .dp sampleDP]).data = [sampleDP] :=
  (deviceDataPoints_dedup (DeviceDataPoints.new (.str "x")) (.str "device1")
    sampleDP sampleDP rfl).2

/-- Claim C8: whenever the key or the value is a boolean, `None`, or of any
type outside string/integer/float (the guards collected in `pyOK`),
`_key_value_valid` returns exactly `(None, None, False)`; the model is a
total function, reflecting that the source raises no exception. -/
theorem key_value_valid_rejects (key value : PyVal) (metadata override : Bool)
    (h : (pyOK key && pyOK value) = false) :
    _key_value_valid key value metadata override =
      (PyVal.none, PyVal.none, false) := by
  unfold _key_value_valid
  rw [h]
  simp

/-- Claim C8 witness: a boolean key is rejected with `(None, None, False)`,
and so is a `None` value. -/
theorem key_value_valid_rejects_witness :
    _key_value_valid (.bool true) (.int 1) false false =
      (PyVal.none, PyVal.none, false) ∧
    _key_value_valid (.str "key") PyVal.none true true =
      (PyVal.none, PyVal.none, false) :=
  ⟨key_value_valid_rejects _ _ _ _ (by decide),
   key_value_valid_rejects _ _ _ _ (by decide)⟩

/-- Claim C9: `DeviceDataPoints.add` consumes only the `DataPoint`
instances of a heterogeneous list and silently skips everything else — the
result equals the add of the filtered list — and the concrete mixed list
`[validReading, "not-a-reading", None]` stores exactly the one valid
Reading. -/
theorem deviceDataPoints_heterogeneous_add (c : DeviceDataPoints)
    (items : List DDPItem) :
    c.add items = c.add (items.filter ddpIsDataPoint) ∧
    ((DeviceDataPoints.new (.str "device1")).add
        [.dp sampleDP, .other (.str "not-a-reading"), .other PyVal.none]).data
      = [sampleDP] := by
  constructor
  · induction items generalizing c with
    | nil => rfl
    | cons i is ih =>
      cases i with
      | dp p =>
        show (c.add1 (.dp p)).add is =
          c.add ((DDPItem.dp p :: is).filter ddpIsDataPoint)
        rw [List.filter_cons_of_pos (by rfl)]
        exact ih (c.add1 (.dp p))
      | other v =>
        show (c.add1 (.other v)).add is =
          c.add ((DDPItem.other v :: is).filter ddpIsDataPoint)
        rw [List.filter_cons_of_neg (by simp [ddpIsDataPoint])]
        exact ih c
  · decide

/-- Claim C7: once a container's valid flag has become true along a
reachable `add` history, no further `add` calls — whatever their items:
duplicates, invalid children, wrong types — ever reset it to false, for
both `DeviceDataPoints` and `AgentPolledData`. -/
theorem add_valid_monotone (device ap ah ai pi : PyVal)
    (past future : List DDPItem) (calls more : List (List APDItem)) :
    (((DeviceDataPoints.new device).add past).valid = true →
      ((DeviceDataPoints.new device).add (past ++ future)).valid = true) ∧
    (((AgentPolledData.new ap ah ai pi).addSeq calls).valid = true →
      ((AgentPolledData.new ap ah ai pi).addSeq (calls ++ more)).valid
        = true) := by
  constructor
  · intro h
    rw [ddp_add_append]
    have hv1 : ((DeviceDataPoints.new device).add past).valid =
        (!((DeviceDataPoints.new device).add past).data.isEmpty &&
          pyBool ((DeviceDataPoints.new device).add past).device) :=
      ddp_add_validEq _ _ rfl
    rw [ddp_add_validEq _ future hv1, ddp_add_device]
    rw [h] at hv1
    have hv1' := hv1.symm
    simp only [Bool.and_eq_true, Bool.not_eq_true'] at hv1' ⊢
    obtain ⟨hne, hdev⟩ := hv1'
    refine ⟨?_, hdev⟩
    obtain ⟨ext, hdata⟩ := ddp_add_data ((DeviceDataPoints.new device).add past)
      future
    rw [hdata]
    simp only [List.isEmpty_eq_false, ne_eq] at hne
    simp [hne]
  · intro h
    rw [apd_active_iff_aux] at h ⊢
    obtain ⟨h1, items, hi, item, him, hacc⟩ := h
    exact ⟨h1, items, List.mem_append_left _ hi, item, him, hacc⟩

/-- Claim C7 witness: a DeviceDataPoints activated by one valid Reading
stays valid after a junk add, and likewise for a Submission. -/
theorem add_valid_monotone_witness :
    ((DeviceDataPoints.new (.str "device1")).add
        ([.dp sampleDP] ++ [.other PyVal.none])).valid = true ∧
    ((AgentPolledData.new (.str "prog") (.str "host") (.str "id")
        (.int 300)).addSeq
        ([[.dd ((DeviceDataPoints.new (.str "device1")).add [.dp sampleDP])]]
          ++ [[.other PyVal.none]])).valid = true :=
  ⟨(add_valid_monotone (.str "device1") (.str "prog") (.str "host")
      (.str "id") (.int 300) [.dp sampleDP] [.other PyVal.none]
      [[.dd ((DeviceDataPoints.new (.str "device1")).add [.dp sampleDP])]]
      [[.other PyVal.none]]).1 (by decide),
   (add_valid_monotone (.str "device1") (.str "prog") (.str "host")
      (.str "id") (.int 300) [.dp sampleDP] [.other PyVal.none]
      [[.dd ((DeviceDataPoints.new (.str "device1")).add [.dp sampleDP])]]
      [[.other PyVal.none]]).2 (by decide)⟩

/-- Claim C4 counterexample: the metadata lists `[("a", "bc")]` and
`[("ab", "c")]` are different accepted metadata attached to Readings with
identical key, value and data type, yet the chained checksums coincide,
because the fold concatenates key and value without a separator. -/
theorem dataPoint_metadata_checksum_collision :
    ((DataPoint.new 0 (.str "cpu") (.int 1) DType.DATA_INT).add
        [.meta (DataPointMetadata.new (.str "a") (.str "bc"))]).metadata
      = [(.str "a", .str "bc")] ∧
    ((DataPoint.new 0 (.str "cpu") (.int 1) DType.DATA_INT).add
        [.meta (DataPointMetadata.new (.str "ab") (.str "c"))]).metadata
      = [(.str "ab", .str "c")] ∧
    ((DataPoint.new 0 (.str "cpu") (.int 1) DType.DATA_INT).add
        [.meta (DataPointMetadata.new (.str "a") (.str "bc"))]).checksum
      = ((DataPoint.new 0 (.str "cpu") (.int 1) DType.DATA_INT).add
          [.meta (DataPointMetadata.new (.str "ab") (.str "c"))]).checksum :=
  ⟨by decide, by decide, by decide⟩

/-- Claim C4 amended: a Reading's checksum is the deterministic chained
fold seeded by the hash of key and data type, folding each accepted
metadata pair in insertion order; two Readings with identical key, value
and data type have different checksums whenever the concatenated key/value
transcripts of their accepted metadata differ (metadata differing only in
the key/value boundary collide, as the counterexample shows). -/
theorem dataPoint_checksum_chain (now : Int) (key value : PyVal) (dt : DType)
    (items1 items2 : List DPItem)
    (h : metaTranscript ((DataPoint.new now key value dt).add items1).metadata
      ≠ metaTranscript
          ((DataPoint.new now key value dt).add items2).metadata) :
    ((DataPoint.new now key value dt).add items1).checksum =
      foldChecksum
        (hashstring
          (pyStr ((DataPoint.new now key value dt).add items1).key ++
            dtypeStr dt))
        (((DataPoint.new now key value dt).add items1).metadata) ∧
    ((DataPoint.new now key value dt).add items1).checksum ≠
      ((DataPoint.new now key value dt).add items2).checksum := by
  obtain ⟨e1, hm1, hc1⟩ :=
    dataPoint_add_chain (DataPoint.new now key value dt) items1
  obtain ⟨e2, hm2, hc2⟩ :=
    dataPoint_add_chain (DataPoint.new now key value dt) items2
  have hm1' : ((DataPoint.new now key value dt).add items1).metadata = e1 := by
    simpa using hm1
  have hm2' : ((DataPoint.new now key value dt).add items2).metadata = e2 := by
    simpa using hm2
  constructor
  · rw [dataPoint_add_key, hm1', hc1]
    rfl
  · rw [hc1, hc2, foldChecksum_eq_append, foldChecksum_eq_append]
    intro heq
    apply h
    rw [hm1', hm2']
    exact string_append_cancel heq

/-- Claim C4 amended, witness: a Reading with one metadata pair and the
same Reading with none have different transcripts and hence different
checksums. -/
theorem dataPoint_checksum_chain_witness :
    ((DataPoint.new 0 (.str "cpu") (.int 1) DType.DATA_INT).add
        [.meta (DataPointMetadata.new (.str "a") (.str "b"))]).checksum ≠
      ((DataPoint.new 0 (.str "cpu") (.int 1) DType.DATA_INT).add
        ([] : List DPItem)).checksum :=
  (dataPoint_checksum_chain 0 (.str "cpu") (.int 1) DType.DATA_INT
    [.meta (DataPointMetadata.new (.str "a") (.str "b"))] [] (by decide)).2

/-- Claim C10: the checksum does not depend on the Reading's value — two
valid Readings with the same key, data type and equal accepted metadata
but any values have equal checksums, so a DeviceDataPoints receiving both
stores only the first and silently discards the second. -/
theorem dedup_ignores_value (now1 now2 : Int) (key v1 v2 : PyVal) (dt : DType)
    (items1 items2 : List DPItem) (device : PyVal)
    (h1 : (DataPoint.new now1 key v1 dt).valid = true)
    (h2 : (DataPoint.new now2 key v2 dt).valid = true)
    (hmeta : ((DataPoint.new now1 key v1 dt).add items1).metadata =
      ((DataPoint.new now2 key v2 dt).add items2).metadata) :
    ((DataPoint.new now1 key v1 dt).add items1).checksum =
      ((DataPoint.new now2 key v2 dt).add items2).checksum ∧
    ((DeviceDataPoints.new device).add
        [.dp ((DataPoint.new now1 key v1 dt).add items1),
         .dp ((DataPoint.new now2 key v2 dt).add items2)]).data =
      [(DataPoint.new now1 key v1 dt).add items1] := by
  have hpv1 : (_key_value_valid key v1 false false).2.2 = true :=
    dataPointValid_pairValid h1
  have hpv2 : (_key_value_valid key v2 false false).2.2 = true :=
    dataPointValid_pairValid h2
  have hk1 := key_value_valid_key_of_valid key v1 false false hpv1
  have hk2 := key_value_valid_key_of_valid key v2 false false hpv2
  have hseed : (DataPoint.new now1 key v1 dt).checksum =
      (DataPoint.new now2 key v2 dt).checksum := by
    show hashstring (pyStr (_key_value_valid key v1 false false).1 ++
        dtypeStr dt) =
      hashstring (pyStr (_key_value_valid key v2 false false).1 ++ dtypeStr dt)
    rw [hk1, hk2]
  obtain ⟨e1, hm1, hc1⟩ :=
    dataPoint_add_chain (DataPoint.new now1 key v1 dt) items1
  obtain ⟨e2, hm2, hc2⟩ :=
    dataPoint_add_chain (DataPoint.new now2 key v2 dt) items2
  have hm1' : ((DataPoint.new now1 key v1 dt).add items1).metadata = e1 := by
    simpa using hm1
  have hm2' : ((DataPoint.new now2 key v2 dt).add items2).metadata = e2 := by
    simpa using hm2
  have he : e1 = e2 := by
    rw [hm1', hm2'] at hmeta
    exact hmeta
  have hck : ((DataPoint.new now1 key v1 dt).add items1).checksum =
      ((DataPoint.new now2 key v2 dt).add items2).checksum := by
    rw [hc1, hc2, hseed, he]
  exact ⟨hck, ddp_pair_dedup device _ _ hck.symm⟩

/-- Claim C10 witness: two valid Readings with the same key and data type
and values `1` and `2` collide on the checksum; only the first survives. -/
theorem dedup_ignores_value_witness :
    ((DataPoint.new 0 (.str "cpu") (.int 1) DType.DATA_INT).add
        ([] : List DPItem)).checksum =
      ((DataPoint.new 0 (.str "cpu") (.int 2) DType.DATA_INT).add
        ([] : List DPItem)).checksum ∧
    ((DeviceDataPoints.new (.str "device1")).add
        [.dp ((DataPoint.new 0 (.str "cpu") (.int 1) DType.DATA_INT).add
            ([] : List DPItem)),
         .dp ((DataPoint.new 0 (.str "cpu") (.int 2) DType.DATA_INT).add
            ([] : List DPItem))]).data =
      [(DataPoint.new 0 (.str "cpu") (.int 1) DType.DATA_INT).add
        ([] : List DPItem)] :=
  dedup_ignores_value 0 0 (.str "cpu") (.int 1) (.int 2) DType.DATA_INT
    [] [] (.str "device1") (by decide) (by decide) (by decide)

/-- Claim C5: for a Reading built from a numeric-as-string value with an
acceptable key/value pair, FLOAT/COUNT/COUNT64 store the float parse of
the string with valid true; INT stores the parse truncated to integer with
valid true; STRING stores the value as a string; and a string that does
not parse as a number under any numeric data type yields valid false. -/
theorem dataPoint_numeric_coercion (now : Int) (key : PyVal) (s : String)
    (hkey : (_key_value_valid key (.str s) false false).2.2 = true) :
    (∀ q : ℚ, parsePyFloat s = some q →
      (∀ dt : DType, dtypeFloatKind dt = true →
        (DataPoint.new now key (.str s) dt).value = .float q ∧
        (DataPoint.new now key (.str s) dt).valid = true) ∧
      ((DataPoint.new now key (.str s) DType.DATA_INT).value
          = .int (ratTrunc q) ∧
        (DataPoint.new now key (.str s) DType.DATA_INT).valid = true)) ∧
    (DataPoint.new now key (.str s) DType.DATA_STRING).value = .str s ∧
    (∀ dt : DType, dtypeNumeric dt = true → parsePyFloat s = Option.none →
      (DataPoint.new now key (.str s) dt).valid = false) := by
  refine ⟨?_, ?_, ?_⟩
  · intro q hq
    constructor
    · intro dt hdt
      cases dt <;> simp_all [DataPoint.new, dataPointValue, dataPointValid,
        is_numeric, dtypeFloatKind, dtypeNumeric, dtypeInList,
        dtypeIsBoolOrNone]
    · constructor <;> simp [DataPoint.new, dataPointValue, dataPointValid,
        is_numeric, hq, hkey, dtypeNumeric, dtypeInList, dtypeIsBoolOrNone,
        dtypeFloatKind]
  · simp [DataPoint.new, dataPointValue, pyStr]
  · intro dt hnum hnone
    cases dt <;> simp_all [DataPoint.new, dataPointValid, is_numeric,
      dtypeNumeric, dtypeInList, dtypeIsBoolOrNone]

/-- Claim C5 witness: `Reading("cpu", "42.0", FLOAT)` stores `42.0` with
valid true; `Reading("cpu", "abc", FLOAT)` is invalid. -/
theorem dataPoint_numeric_coercion_witness :
    (DataPoint.new 0 (.str "cpu") (.str "42.0") DType.DATA_FLOAT).value
      = .float 42 ∧
    (DataPoint.new 0 (.str "cpu") (.str "42.0") DType.DATA_FLOAT).valid
      = true ∧
    (DataPoint.new 0 (.str "cpu") (.str "abc") DType.DATA_FLOAT).valid
      = false := by
  refine ⟨?_, ?_, ?_⟩
  · exact (((dataPoint_numeric_coercion 0 (.str "cpu") ("42.0") (by decide)).1
      42 (by decide)).1 DType.DATA_FLOAT (by decide)).1
  · exact (((dataPoint_numeric_coercion 0 (.str "cpu") ("42.0") (by decide)).1
      42 (by decide)).1 DType.DATA_FLOAT (by decide)).2
  · exact (dataPoint_numeric_coercion 0 (.str "cpu") ("abc")
      (by decide)).2.2 DType.DATA_FLOAT (by decide) (by decide)

/-- Claim C6: for every key whose lowercased form contains the reserved
token `"pattoo"` (paired with any acceptable value), `_key_value_valid`
with `override = False` reports invalid, and the identical call with
`override = True` reports valid. -/
theorem key_value_valid_reserved (key : String) (value : PyVal)
    (metadata : Bool)
    (hk : containsSub (pyLower key) ("pattoo") = true)
    (hv : pyOK value = true) :
    (_key_value_valid (.str key) value metadata false).2.2 = false ∧
    (_key_value_valid (.str key) value metadata true).2.2 = true := by
  have ht : ("pattoo" : String).data <:+: (pyLower key).data :=
    of_decide_eq_true hk
  have hstrip : ("pattoo" : String).data <:+: pyStripList (pyLower key).data :=
    infix_pyStripList (by decide) (by decide) ht
  have hdata : (normKey (.str key)).data = pyStripList (pyLower key).data := rfl
  have hlow : ("pattoo" : String).data <:+:
      (pyLower (normKey (.str key))).data := by
    have hmap := infix_map_toLower hstrip
    have hfix : ("pattoo" : String).data.map Char.toLower =
        ("pattoo" : String).data := by decide
    rw [hfix] at hmap
    show ("pattoo" : String).data <:+:
      (normKey (.str key)).data.map Char.toLower
    rw [hdata]
    exact hmap
  have hcontains : containsSub (pyLower (normKey (.str key))) ("pattoo")
      = true := decide_eq_true hlow
  have hok : (pyOK (.str key) && pyOK value) = true := by
    rw [show pyOK (.str key) = true from rfl, Bool.true_and]
    exact hv
  have hne : (normKey (.str key) != "") = true := by
    have hnonnil : (normKey (.str key)).data ≠ [] := by
      rw [hdata]
      exact infix_nonempty hstrip (by decide)
    rw [bne_iff_ne]
    intro he
    exact hnonnil (by rw [he])
  constructor
  · unfold _key_value_valid
    rw [if_pos hok, if_neg (by rw [hcontains, hne]; simp)]
  · unfold _key_value_valid
    rw [if_pos hok, if_pos (by rw [hne]; simp)]

/-- Claim C6 witness: the reserved key `"pattoo_foo"` with value `1` is
rejected without override and accepted with override. -/
theorem key_value_valid_reserved_witness :
    (_key_value_valid (.str "pattoo_foo") (.int 1) false false).2.2
      = false ∧
    (_key_value_valid (.str "pattoo_foo") (.int 1) false true).2.2 = true :=
  key_value_valid_reserved "pattoo_foo" (.int 1) false (by decide) (by decide)

end Pattoo
